import Mathlib

/-!
Verification of the LLMeter provider-adapter / usage-accounting core.

The definitions below are a shallow embedding of the TypeScript sources:
  - lib/use-openai.ts and its multi-provider revision (the `useOpenAI` hook:
    session configuration state, `sendMessage` request building and response
    parsing),
  - components/prompt-manager.tsx (prompt CRUD and template preview),
  - the chat page (`handleSubmit`, `tokenStats`).
JavaScript strings are modelled as Lean `String` (a list of characters);
JSON objects with possibly-absent fields are modelled with `Option` fields;
a JavaScript property access on `undefined` (a thrown TypeError) is modelled
by an explicit error constructor.
-/

namespace LLMeter

/-- Canonical message role, from the `Message` type of the sources. -/
inductive Role where
  | system
  | user
  | assistant
deriving DecidableEq, Repr

/-- Canonical message: `{role, content}` as in the sources. -/
structure Message where
  role : Role
  content : String
deriving DecidableEq, Repr

/-- Modelled from the spec: the Token Estimator (`countTokens` from
`lib/tokenizer.ts`) is imported by every source file but the tokenizer file
itself is not among the provided sources.  The spec documents it as a pure
character-density heuristic: about 4 characters per token, rounded to the
nearest non-negative integer, empty text giving zero and non-empty text at
least one token, monotone in length for repeated characters. -/
def countTokens (text : String) : Nat :=
  if text.data.length = 0 then 0 else max 1 ((text.data.length + 2) / 4)

/-- Does `p` match at the head of `l`?  (Character-wise comparison, the
matching step of both JavaScript `String.prototype.includes` and the
global-regex literal search of `String.prototype.replace`.) -/
def matchesAt (p l : List Char) : Bool :=
  match p, l with
  | [], _ => true
  | _ :: _, [] => false
  | a :: ps, b :: ls => a == b && matchesAt ps ls

/-- Does `pat` occur anywhere in `l`? -/
def listHasSub (pat : List Char) : List Char → Bool
  | [] => matchesAt pat []
  | c :: cs => matchesAt pat (c :: cs) || listHasSub pat cs

/-- JavaScript `s.includes(pat)`. -/
def strIncludes (s pat : String) : Bool :=
  listHasSub pat.data s.data

/-- JavaScript `s.trim()`: strip leading and trailing whitespace. -/
def strTrim (s : String) : String :=
  ⟨((s.data.dropWhile Char.isWhitespace).reverse.dropWhile Char.isWhitespace).reverse⟩

/-! ### Provider request building (`sendMessage`, first half) -/

/-- One part of a Google generative-language content block: `{ text: ... }`. -/
structure GPart where
  text : String
deriving DecidableEq, Repr

/-- A Google content block `{ role?, parts }`.  The placeholder block the
code substitutes for an empty conversation carries no `role` property,
hence the `Option`. -/
structure GContent where
  role : Option String
  parts : List GPart
deriving DecidableEq, Repr

/-- The `systemInstruction` object `{ parts: [{ text }] }`. -/
structure GSysInstr where
  parts : List GPart
deriving DecidableEq, Repr

/-- The request body, one shape per branch of `sendMessage`.  The constant
sampling temperature 0.7 present in every branch is omitted (it is the same
literal in all of them and no property concerns it). -/
inductive ReqBody where
  | openaiBody (model : String) (messages : List Message)
  | googleBody (contents : List GContent) (systemInstruction : Option GSysInstr)
  | anthropicBody (model : String) (messages : List Message) (system : String)
deriving DecidableEq, Repr

/-- The `{endpoint, headers, body}` triple `sendMessage` assembles before
the `fetch` call. -/
structure Request where
  endpoint : String
  headers : List (String × String)
  body : ReqBody
deriving DecidableEq, Repr

/-- The only pre-network failure of `sendMessage`:
`throw new Error("API key is not configured")`. -/
inductive SendError where
  | configurationError
deriving DecidableEq, Repr

/-- `model.includes("/") ? model : `models/${model}`` -/
def googleModelPath (model : String) : String :=
  if strIncludes model "/" then model else "models/" ++ model

/-- The Google endpoint string. -/
def googleEndpoint (baseUrl model apiKey : String) : String :=
  baseUrl ++ "/" ++ googleModelPath model ++ ":generateContent?key=" ++ apiKey

/-- `messages.find(m => m.role === "system")?.content || ""` -/
def firstSystemContent (messages : List Message) : String :=
  (((messages.find? (fun m => m.role == Role.system)).map Message.content).getD "")

/-- The `conversationParts` intermediate: non-system messages wrapped
role-wise as single-part content blocks. -/
def googleConversationParts (messages : List Message) : List GContent :=
  (messages.filter (fun m => m.role != Role.system)).map
    (fun m => { role := some (if m.role == Role.user then "user" else "model"),
                parts := [⟨m.content⟩] : GContent })

/-- The `contents` array: the conversation parts, with the single-part
placeholder greeting substituted when the list is empty. -/
def googleContents (messages : List Message) : List GContent :=
  if (googleConversationParts messages).length > 0 then googleConversationParts messages
  else [{ role := none, parts := [⟨"Hello"⟩] }]

/-- The `systemInstruction` field: present only when the extracted system
content is a non-empty (truthy) string. -/
def googleSysInstr (messages : List Message) : Option GSysInstr :=
  if firstSystemContent messages ≠ "" then some ⟨[⟨firstSystemContent messages⟩]⟩ else none

/-- The request-building half of `sendMessage` (everything up to the
`fetch`).  The empty-credential guard is the first statement of the
function body, before any branch dispatch or endpoint construction; the
branch dispatch tests the base URL for provider-specific substrings, in
the order of the source. -/
def buildRequest (apiKey model baseUrl : String) (messages : List Message) :
    Except SendError Request :=
  if apiKey = "" then .error .configurationError
  else
    let isOpenAI := strIncludes baseUrl "openai.com"
    let isGoogle := strIncludes baseUrl "googleapis.com"
    let isAnthropic := strIncludes baseUrl "anthropic.com"
    if isOpenAI then
      .ok { endpoint := baseUrl ++ "/chat/completions",
            headers := [("Content-Type", "application/json"),
                        ("Authorization", "Bearer " ++ apiKey)],
            body := .openaiBody model messages }
    else if isGoogle then
      .ok { endpoint := googleEndpoint baseUrl model apiKey,
            headers := [("Content-Type", "application/json")],
            body := .googleBody (googleContents messages) (googleSysInstr messages) }
    else if isAnthropic then
      .ok { endpoint := baseUrl ++ "/v1/messages",
            headers := [("Content-Type", "application/json"),
                        ("x-api-key", apiKey),
                        ("anthropic-version", "2023-06-01")],
            body := .anthropicBody model (messages.filter (fun m => m.role != Role.system))
                      (firstSystemContent messages) }
    else
      .ok { endpoint := baseUrl ++ "/chat/completions",
            headers := [("Content-Type", "application/json"),
                        ("Authorization", "Bearer " ++ apiKey)],
            body := .openaiBody model messages }

end LLMeter

open LLMeter in
/-- C1: for every provider variant (any base URL, hence any branch of the
dispatch) and every conversation, invoking the request-building half of
`sendMessage` with an empty credential fails with the configuration error
before any endpoint string is constructed: the result is the error value,
not a request. -/
theorem emptyCredential_configurationError
    (apiKey model baseUrl : String) (messages : List Message)
    (h : apiKey = "") :
    buildRequest apiKey model baseUrl messages = .error .configurationError := by
  simp [buildRequest, h]

open LLMeter in
/-- Witness for C1 at a concrete Google-style configuration. -/
theorem emptyCredential_configurationError_witness :
    buildRequest "" "gemini-2.0-flash" "https://generativelanguage.googleapis.com/v1beta"
      [⟨Role.user, "Hi"⟩] = .error .configurationError :=
  emptyCredential_configurationError _ _ _ _ rfl

open LLMeter in
/-- C2 (amended): for a generative-language configuration (base URL
containing the Google substring and not the OpenAI one) and a non-empty
credential, `buildRequest` produces the Google-shaped request: endpoint
`{base}/{model-path}:generateContent?key={credential}` with the model path
prefixed by `models/` exactly when the identifier holds no slash; a
system-role message with NON-EMPTY content extracted into a separate
`systemInstruction` field; non-system messages mapped role-wise
(user to `user`, assistant to `model`), each a single-part block; the
placeholder greeting substituted when the non-system list is empty; and in
the scenario [{system, Be terse}, {user, Hi}] the contents array is exactly
one entry of role `user`. -/
theorem googleRequest_shape
    (apiKey model baseUrl : String) (messages : List Message)
    (hk : apiKey ≠ "")
    (ho : strIncludes baseUrl "openai.com" = false)
    (hg : strIncludes baseUrl "googleapis.com" = true) :
    buildRequest apiKey model baseUrl messages =
      .ok { endpoint := googleEndpoint baseUrl model apiKey,
            headers := [("Content-Type", "application/json")],
            body := .googleBody (googleContents messages) (googleSysInstr messages) }
    ∧ (strIncludes model "/" = false → googleModelPath model = "models/" ++ model)
    ∧ (strIncludes model "/" = true → googleModelPath model = model)
    ∧ googleEndpoint baseUrl model apiKey
        = baseUrl ++ "/" ++ googleModelPath model ++ ":generateContent?key=" ++ apiKey
    ∧ (∀ s, firstSystemContent messages = s → s ≠ "" →
        googleSysInstr messages = some ⟨[⟨s⟩]⟩)
    ∧ (messages.filter (fun m => m.role != Role.system) ≠ [] →
        googleContents messages
          = (messages.filter (fun m => m.role != Role.system)).map
              (fun m => ⟨some (if m.role == Role.user then "user" else "model"),
                         [⟨m.content⟩]⟩))
    ∧ (messages.filter (fun m => m.role != Role.system) = [] →
        googleContents messages = [⟨none, [⟨"Hello"⟩]⟩])
    ∧ googleContents [⟨Role.system, "Be terse"⟩, ⟨Role.user, "Hi"⟩]
        = [⟨some "user", [⟨"Hi"⟩]⟩]
    ∧ googleSysInstr [⟨Role.system, "Be terse"⟩, ⟨Role.user, "Hi"⟩]
        = some ⟨[⟨"Be terse"⟩]⟩ := by
  refine ⟨?_, ?_, ?_, rfl, ?_, ?_, ?_, by decide, by decide⟩
  · simp [buildRequest, hk, ho, hg]
  · intro h; simp [googleModelPath, h]
  · intro h; simp [googleModelPath, h]
  · intro s hs hne; simp [googleSysInstr, hs, hne]
  · intro h
    have hlen : (googleConversationParts messages).length > 0 := by
      unfold googleConversationParts
      rw [List.length_map]
      exact List.length_pos.mpr h
    unfold googleContents
    rw [if_pos hlen]
    rfl
  · intro h
    have hnil : googleConversationParts messages = [] := by
      unfold googleConversationParts
      rw [h]
      rfl
    unfold googleContents
    rw [hnil]
    rfl

open LLMeter in
/-- Witness for C2 at the scenario input of the claim. -/
theorem googleRequest_shape_witness :
    buildRequest "k" "gemini-2.0-flash"
        "https://generativelanguage.googleapis.com/v1beta"
        [⟨Role.system, "Be terse"⟩, ⟨Role.user, "Hi"⟩] =
      .ok { endpoint := googleEndpoint "https://generativelanguage.googleapis.com/v1beta"
              "gemini-2.0-flash" "k",
            headers := [("Content-Type", "application/json")],
            body := .googleBody
              (googleContents [⟨Role.system, "Be terse"⟩, ⟨Role.user, "Hi"⟩])
              (googleSysInstr [⟨Role.system, "Be terse"⟩, ⟨Role.user, "Hi"⟩]) } :=
  (googleRequest_shape "k" "gemini-2.0-flash"
    "https://generativelanguage.googleapis.com/v1beta"
    [⟨Role.system, "Be terse"⟩, ⟨Role.user, "Hi"⟩]
    (by decide) (by decide) (by decide)).1

open LLMeter in
/-- C2 counterexample: a system-role message with empty content is present,
yet the produced request carries NO `systemInstruction` field (the code
tests truthiness of the extracted content, not presence of the message), so
the claim that the system-role message (if any) is extracted into a
separate `systemInstruction` field fails at this input. -/
theorem googleRequest_emptySystem_counterexample :
    buildRequest "k" "gemini-2.0-flash"
        "https://generativelanguage.googleapis.com/v1beta"
        [⟨Role.system, ""⟩, ⟨Role.user, "Hi"⟩] =
      .ok { endpoint := "https://generativelanguage.googleapis.com/v1beta/models/gemini-2.0-flash:generateContent?key=k",
            headers := [("Content-Type", "application/json")],
            body := .googleBody [⟨some "user", [⟨"Hi"⟩]⟩] none }
    ∧ (([⟨Role.system, ""⟩, ⟨Role.user, "Hi"⟩] : List Message).find?
        (fun m => m.role == Role.system)).isSome = true := by
  exact ⟨rfl, rfl⟩

namespace LLMeter

/-! ### Provider response parsing (`sendMessage`, second half)

The parsed JSON body `data` is modelled with `Option` fields for every
property the code reads that a response may lack.  A JavaScript property
access on `undefined` (e.g. `data.choices[0]` when `choices` is absent, or
`[0].message` on an empty array) throws a TypeError; that is the `jsError`
outcome. -/

/-- `choices[i].message` -/
structure RespMessage where
  content : String
deriving DecidableEq, Repr

/-- One element of the `choices` array. -/
structure RespChoice where
  message : Option RespMessage
deriving DecidableEq, Repr

/-- One element of the Anthropic `content` array. -/
structure RespBlock where
  text : String
deriving DecidableEq, Repr

/-- `candidates[i].content.parts[j]`; `text` may be absent
(`parts[0].text || ""`). -/
structure RespPart where
  text : Option String
deriving DecidableEq, Repr

/-- `candidates[i].content` -/
structure RespContentObj where
  parts : Option (List RespPart)
deriving DecidableEq, Repr

/-- One element of the Google `candidates` array. -/
structure RespCandidate where
  content : Option RespContentObj
deriving DecidableEq, Repr

/-- The `usage` object. -/
structure RespUsage where
  completion_tokens : Option Nat
deriving DecidableEq, Repr

/-- The decoded 2xx response body. -/
structure RespData where
  choices : Option (List RespChoice)
  content : Option (List RespBlock)
  candidates : Option (List RespCandidate)
  usage : Option RespUsage
deriving DecidableEq, Repr

/-- Outcome of the parsing section: either `{content, tokens}` or a thrown
TypeError from an access on a missing field. -/
inductive ParseResult where
  | ok (content : String) (tokens : Nat)
  | jsError
deriving DecidableEq, Repr

/-- `data.usage?.completion_tokens` -/
def usageCompletionTokens (data : RespData) : Option Nat :=
  data.usage.bind RespUsage.completion_tokens

/-- The response-parsing section of `sendMessage`, dispatching on the same
base-URL flags as the request builder.  The OpenAI/custom branch guards
nothing: `data.choices[0].message.content` throws when a level is missing,
and `data.usage?.completion_tokens || countTokens(content)` falls back to
the estimator when the reported count is absent OR zero (falsy).  The
Anthropic branch likewise dereferences `data.content[0].text` unguarded.
Only the Google branch tests every level before reading and defaults the
content to the empty string. -/
def parseResponse (isOpenAI isGoogle isAnthropic : Bool) (data : RespData) : ParseResult :=
  if isOpenAI || (!isAnthropic && !isGoogle) then
    match data.choices with
    | none => .jsError
    | some choices =>
      match choices.head? with
      | none => .jsError
      | some choice =>
        match choice.message with
        | none => .jsError
        | some msg =>
          let tokens :=
            match usageCompletionTokens data with
            | some t => if t == 0 then countTokens msg.content else t
            | none => countTokens msg.content
          .ok msg.content tokens
  else if isAnthropic then
    match data.content with
    | none => .jsError
    | some blocks =>
      match blocks.head? with
      | none => .jsError
      | some b => .ok b.text (countTokens b.text)
  else
    let content :=
      match data.candidates with
      | none => ""
      | some cands =>
        match cands.head? with
        | none => ""
        | some cand =>
          match cand.content with
          | none => ""
          | some cobj =>
            match cobj.parts with
            | none => ""
            | some parts =>
              match parts.head? with
              | none => ""
              | some part => part.text.getD ""
    .ok content (countTokens content)

end LLMeter

open LLMeter in
/-- C3 counterexample: for the primary-REST (OpenAI) variant, parsing a
successful response body with every field absent throws (TypeError on
`data.choices[0]`) instead of degrading to empty content, so the claim
that parsing never raises for every provider variant is false. -/
theorem parseResponse_missingFields_counterexample :
    parseResponse true false false ⟨none, none, none, none⟩ = .jsError := rfl

open LLMeter in
/-- C3 (amended): only the generative-language (Google) variant handles
absent or malformed fields defensively — it always returns some content
string (the empty string when any level of the structure is missing) with
the estimated token count; the primary-REST/custom and messages-API
variants throw as soon as the `choices` or `content` array is absent. -/
theorem parseResponse_defensiveness
    (isOpenAI isGoogle isAnthropic : Bool) (data : RespData) :
    (isOpenAI = false → isGoogle = true → isAnthropic = false →
      ∃ c, parseResponse isOpenAI isGoogle isAnthropic data = .ok c (countTokens c))
    ∧ (data.candidates = none → isOpenAI = false → isGoogle = true → isAnthropic = false →
      parseResponse isOpenAI isGoogle isAnthropic data = .ok "" (countTokens ""))
    ∧ ((isOpenAI = true ∨ (isAnthropic = false ∧ isGoogle = false)) → data.choices = none →
      parseResponse isOpenAI isGoogle isAnthropic data = .jsError)
    ∧ (isAnthropic = true → isOpenAI = false → data.content = none →
      parseResponse isOpenAI isGoogle isAnthropic data = .jsError) := by
  refine ⟨?_, ?_, ?_, ?_⟩
  · intro ho hg ha
    subst ho; subst hg; subst ha
    exact ⟨_, rfl⟩
  · intro hc ho hg ha
    subst ho; subst hg; subst ha
    simp [parseResponse, hc]
  · intro hflags hc
    rcases hflags with ho | ⟨ha, hg⟩
    · subst ho; simp [parseResponse, hc]
    · subst ha; subst hg; simp [parseResponse, hc]
  · intro ha ho hc
    subst ha; subst ho
    simp [parseResponse, hc]

open LLMeter in
/-- Witness for C3 (amended) at concrete flag settings and bodies. -/
theorem parseResponse_defensiveness_witness :
    parseResponse false true false ⟨none, none, none, none⟩ = .ok "" (countTokens "")
    ∧ parseResponse false false false ⟨none, none, none, none⟩ = .jsError
    ∧ parseResponse false false true ⟨none, none, none, none⟩ = .jsError :=
  ⟨(parseResponse_defensiveness false true false ⟨none, none, none, none⟩).2.1
      rfl rfl rfl rfl,
   (parseResponse_defensiveness false false false ⟨none, none, none, none⟩).2.2.1
      (Or.inr ⟨rfl, rfl⟩) rfl,
   (parseResponse_defensiveness false false true ⟨none, none, none, none⟩).2.2.2
      rfl rfl rfl⟩

open LLMeter in
/-- C4 counterexample: the body reports `usage.completion_tokens = 0`, yet
the parsed token count is the estimate of the content (here 1), not the
reported 0, because `data.usage?.completion_tokens || countTokens(content)`
treats a reported 0 as falsy.  So the claim that a reported value always
takes precedence is false. -/
theorem reportedUsage_zero_counterexample :
    parseResponse true false false
        ⟨some [⟨some ⟨"Hi"⟩⟩], none, none, some ⟨some 0⟩⟩
      ≠ .ok "Hi" 0
    ∧ parseResponse true false false
        ⟨some [⟨some ⟨"Hi"⟩⟩], none, none, some ⟨some 0⟩⟩
      = .ok "Hi" (countTokens "Hi") := by
  exact ⟨by decide, rfl⟩

open LLMeter in
/-- C4 (amended): for the primary-REST and custom variants, a
provider-reported `usage.completion_tokens` value is the token count
returned by the parser only when it is non-zero; when usage is absent, the
field is absent, or the reported value is zero (falsy), the Token Estimator
applied to the parsed content is returned instead. -/
theorem reportedUsage_precedence
    (isOpenAI isGoogle isAnthropic : Bool) (data : RespData)
    (ch : RespChoice) (rest : List RespChoice) (m : RespMessage)
    (hflags : isOpenAI = true ∨ (isAnthropic = false ∧ isGoogle = false))
    (hch : data.choices = some (ch :: rest))
    (hm : ch.message = some m) :
    (∀ t, usageCompletionTokens data = some t → t ≠ 0 →
      parseResponse isOpenAI isGoogle isAnthropic data = .ok m.content t)
    ∧ (usageCompletionTokens data = none ∨ usageCompletionTokens data = some 0 →
      parseResponse isOpenAI isGoogle isAnthropic data
        = .ok m.content (countTokens m.content)) := by
  have hcond : (isOpenAI || (!isAnthropic && !isGoogle)) = true := by
    rcases hflags with h | ⟨h1, h2⟩
    · simp [h]
    · simp [h1, h2]
  constructor
  · intro t ht htz
    simp [parseResponse, hcond, hch, hm, ht, htz]
  · intro h
    rcases h with h | h
    · simp [parseResponse, hcond, hch, hm, h]
    · simp [parseResponse, hcond, hch, hm, h]

open LLMeter in
/-- Witness for C4 (amended): a non-zero reported count of 7 is returned
verbatim; with usage absent the estimator is used. -/
theorem reportedUsage_precedence_witness :
    parseResponse true false false
        ⟨some [⟨some ⟨"Hi"⟩⟩], none, none, some ⟨some 7⟩⟩ = .ok "Hi" 7
    ∧ parseResponse true false false
        ⟨some [⟨some ⟨"Hi"⟩⟩], none, none, none⟩ = .ok "Hi" (countTokens "Hi") :=
  ⟨(reportedUsage_precedence true false false
      ⟨some [⟨some ⟨"Hi"⟩⟩], none, none, some ⟨some 7⟩⟩
      ⟨some ⟨"Hi"⟩⟩ [] ⟨"Hi"⟩ (Or.inl rfl) rfl rfl).1 7 rfl (by decide),
   (reportedUsage_precedence true false false
      ⟨some [⟨some ⟨"Hi"⟩⟩], none, none, none⟩
      ⟨some ⟨"Hi"⟩⟩ [] ⟨"Hi"⟩ (Or.inl rfl) rfl rfl).2 (Or.inl rfl)⟩

namespace LLMeter

/-! ### Session configuration (the state/effect part of `useOpenAI`)

The hook keeps `currentProvider`, `apiKey`, `model`, `baseUrl` as React
state and mirrors them into per-provider sessionStorage keys through four
watch effects.  Switching the provider runs, in declaration order:
the provider effect (store the provider name, then read the per-provider
stored values and queue them as the new live values, defaulting the model
and base URL per provider and the credential to empty), then the three
save effects, still seeing the OLD live values but the NEW provider (they
store those values under the new provider key); on the next render the
queued values land and the save effects run again with the settled values.
`switchProvider` below replays exactly that cascade; a second run of a
save effect whose inputs did not change writes the same value again, so
running the save effects unconditionally on the settled render is
equivalent to the conditional re-fire. -/

/-- The closed provider set of the multi-provider hook. -/
inductive Provider where
  | openai
  | google
  | anthropic
  | custom
deriving DecidableEq, Repr

/-- Per-provider default model; the custom provider has none (the code
leaves the previous model in place). -/
def defaultModel : Provider → Option String
  | .openai => some "gpt-4o"
  | .google => some "gemini-2.0-flash"
  | .anthropic => some "claude-3-haiku"
  | .custom => none

/-- Per-provider default base URL; none for the custom provider. -/
def defaultBaseUrl : Provider → Option String
  | .openai => some "https://api.openai.com/v1"
  | .google => some "https://generativelanguage.googleapis.com/v1beta"
  | .anthropic => some "https://api.anthropic.com"
  | .custom => none

/-- sessionStorage as seen by the hook: the `llm_provider` slot plus the
three per-provider key families. -/
structure Store where
  provider : Provider
  apiKeys : Provider → Option String
  models : Provider → Option String
  urls : Provider → Option String

/-- Point update of one key family. -/
def updAt (f : Provider → Option String) (p : Provider) (v : Option String) :
    Provider → Option String :=
  fun q => if q = p then v else f q

/-- `setItem` for a truthy value, `removeItem` for the empty string. -/
def setOrRemove (v : String) : Option String :=
  if v = "" then none else some v

/-- Live hook state plus the storage. -/
structure SessState where
  provider : Provider
  apiKey : String
  model : String
  baseUrl : String
  store : Store

/-- The three save effects: persist the live credential/model/base URL
under the CURRENT provider key (removing the key when the value is empty). -/
def saveEffects (s : SessState) : SessState :=
  { s with store :=
      { s.store with
        apiKeys := updAt s.store.apiKeys s.provider (setOrRemove s.apiKey),
        models := updAt s.store.models s.provider (setOrRemove s.model),
        urls := updAt s.store.urls s.provider (setOrRemove s.baseUrl) } }

/-- The provider effect, credential part: stored value or empty. -/
def loadedApiKey (st : Store) (p : Provider) : String :=
  (st.apiKeys p).getD ""

/-- The provider effect, model part: stored value, else the provider
default, else (custom) the current value is left as is. -/
def loadedModel (st : Store) (p : Provider) (cur : String) : String :=
  match st.models p with
  | some m => m
  | none => (defaultModel p).getD cur

/-- The provider effect, base URL part. -/
def loadedBaseUrl (st : Store) (p : Provider) (cur : String) : String :=
  match st.urls p with
  | some u => u
  | none => (defaultBaseUrl p).getD cur

/-- `setProvider q` followed by the resulting effect cascade.  Setting the
provider to its current value re-renders nothing and runs no effect. -/
def switchProvider (s : SessState) (q : Provider) : SessState :=
  if q = s.provider then s
  else
    let s1 : SessState := { s with provider := q, store := { s.store with provider := q } }
    let k := loadedApiKey s1.store q
    let m := loadedModel s1.store q s1.model
    let u := loadedBaseUrl s1.store q s1.baseUrl
    let s2 := saveEffects s1
    saveEffects { s2 with apiKey := k, model := m, baseUrl := u }

end LLMeter

open LLMeter in
/-- C5: (round trip) from a settled state — storage under the active
provider agrees with the live values — with non-empty live model and base
URL, switching to any provider and back restores exactly the credential,
model, and base URL (and the provider); (defaults) switching to a distinct
provider that has documented defaults and no stored values yields an empty
credential and that provider's default model and base URL. -/
theorem providerSwitch_roundTrip_defaults :
    (∀ (s : SessState) (q : Provider),
      s.store.apiKeys s.provider = setOrRemove s.apiKey →
      s.store.models s.provider = setOrRemove s.model →
      s.store.urls s.provider = setOrRemove s.baseUrl →
      s.model ≠ "" → s.baseUrl ≠ "" →
      (switchProvider (switchProvider s q) s.provider).provider = s.provider
      ∧ (switchProvider (switchProvider s q) s.provider).apiKey = s.apiKey
      ∧ (switchProvider (switchProvider s q) s.provider).model = s.model
      ∧ (switchProvider (switchProvider s q) s.provider).baseUrl = s.baseUrl)
    ∧ (∀ (s : SessState) (q : Provider) (dm du : String),
      q ≠ s.provider →
      s.store.apiKeys q = none →
      s.store.models q = none →
      s.store.urls q = none →
      defaultModel q = some dm →
      defaultBaseUrl q = some du →
      (switchProvider s q).apiKey = ""
      ∧ (switchProvider s q).model = dm
      ∧ (switchProvider s q).baseUrl = du) := by
  constructor
  · intro s q h1 h2 h3 hm hu
    by_cases hq : q = s.provider
    · simp [switchProvider, hq]
    · have hpq : ¬ s.provider = q := fun h => hq h.symm
      simp only [switchProvider, if_neg hq]
      simp only [saveEffects, updAt, loadedApiKey, loadedModel, loadedBaseUrl]
      simp only [if_neg hpq, if_pos rfl]
      simp only [h1, h2, h3]
      rcases eq_or_ne s.apiKey "" with ha | ha
      · simp [setOrRemove, ha, hm, hu]
      · simp [setOrRemove, ha, hm, hu]
  · intro s q dm du hq hk hm hu hdm hdu
    simp [switchProvider, if_neg (fun h => hq h), saveEffects, updAt,
      loadedApiKey, loadedModel, loadedBaseUrl, hk, hm, hu, hdm, hdu]

open LLMeter in
/-- A settled OpenAI session used as the witness input. -/
def sessExample : SessState :=
  { provider := .openai,
    apiKey := "sk-test",
    model := "gpt-4o",
    baseUrl := "https://api.openai.com/v1",
    store :=
      { provider := .openai,
        apiKeys := fun p => if p = .openai then some "sk-test" else none,
        models := fun p => if p = .openai then some "gpt-4o" else none,
        urls := fun p => if p = .openai then some "https://api.openai.com/v1" else none } }

open LLMeter in
/-- Witness for C5: the round trip openai -> google -> openai restores the
stored values, and switching to anthropic with nothing stored yields its
documented defaults with an empty credential. -/
theorem providerSwitch_roundTrip_defaults_witness :
    ((switchProvider (switchProvider sessExample .google) .openai).provider = .openai
      ∧ (switchProvider (switchProvider sessExample .google) .openai).apiKey = "sk-test"
      ∧ (switchProvider (switchProvider sessExample .google) .openai).model = "gpt-4o"
      ∧ (switchProvider (switchProvider sessExample .google) .openai).baseUrl
          = "https://api.openai.com/v1")
    ∧ ((switchProvider sessExample .anthropic).apiKey = ""
      ∧ (switchProvider sessExample .anthropic).model = "claude-3-haiku"
      ∧ (switchProvider sessExample .anthropic).baseUrl = "https://api.anthropic.com") := by
  constructor
  · exact providerSwitch_roundTrip_defaults.1 sessExample .google rfl rfl rfl
      (by decide) (by decide)
  · exact providerSwitch_roundTrip_defaults.2 sessExample .anthropic
      "claude-3-haiku" "https://api.anthropic.com" (by decide) rfl rfl rfl rfl rfl

namespace LLMeter

/-! ### Prompt records and the template engine (prompt-manager.tsx) -/

/-- The `Prompt` record of prompt-manager.tsx. -/
structure Prompt where
  id : String
  name : String
  content : String
  tokens : Nat
  isTemplate : Bool
deriving DecidableEq, Repr

/-- The reserved placeholder, as a character list. -/
def qpat : List Char := "{query}".data

/-- The dollar character, which triggers replacement-pattern expansion in
a JavaScript string replacement. -/
def dollarChar : Char := '$'

/-- The ampersand: `$&` references the matched text. -/
def ampChar : Char := '&'

/-- The backquote character (code 96): dollar backquote references the
portion of the original string before the match. -/
def bqChar : Char := Char.ofNat 96

/-- The single quote character (code 39): dollar quote references the
portion of the original string after the match. -/
def sqChar : Char := Char.ofNat 39

/-- GetSubstitution for a JavaScript string replacement: `$$` inserts a
dollar, `$&` the matched text, dollar backquote the portion of the
original string before the match, dollar quote the portion after it; any
other dollar use is literal.  The pattern `/{query}/` has no capture
groups, so group references also fall through to the literal case. -/
def expandDollar (matched before after : List Char) : List Char → List Char
  | [] => []
  | [c] => [c]
  | c :: d :: rest =>
    if c = dollarChar then
      if d = dollarChar then dollarChar :: expandDollar matched before after rest
      else if d = ampChar then matched ++ expandDollar matched before after rest
      else if d = bqChar then before ++ expandDollar matched before after rest
      else if d = sqChar then after ++ expandDollar matched before after rest
      else c :: expandDollar matched before after (d :: rest)
    else c :: expandDollar matched before after (d :: rest)

/-- Global replacement, the semantics of
`template.replace(/{query}/g, rep)`: scan the original string `orig` left
to right (`pos` is the index where the remainder being scanned starts);
at each match insert the dollar-expanded replacement — expanded against
the matched text and the surrounding original text at that position — and
continue after the match; inserted text is not rescanned. -/
def replaceQueryAux (rep orig : List Char) (pos : Nat) : List Char → List Char
  | [] => []
  | c :: cs =>
    if matchesAt qpat (c :: cs) then
      expandDollar qpat (List.take pos orig) (List.drop (pos + qpat.length) orig) rep
        ++ replaceQueryAux rep orig (pos + qpat.length) (List.drop qpat.length (c :: cs))
    else
      c :: replaceQueryAux rep orig (pos + 1) cs
termination_by l => l.length
decreasing_by
  · have h7 : qpat.length = 7 := rfl
    simp [List.length_drop, h7]
    omega
  · simp

/-- `s.replace(/{query}/g, rep)` on character lists. -/
def replaceQuery (rep s : List Char) : List Char :=
  replaceQueryAux rep s 0 s

/-- String-level wrapper of `replaceQuery`. -/
def replaceQueryStr (rep s : String) : String :=
  ⟨replaceQuery rep.data s.data⟩

/-- `previewTemplate` from prompt-manager.tsx: empty input is previewed
with a descriptive placeholder. -/
def previewTemplate (template input : String) : String :=
  if input = "" then replaceQueryStr "[Your input will appear here]" template
  else replaceQueryStr input template

/-- The render operation of the template engine: templates go through
`previewTemplate`; a non-template prompt is used as stored
(`handleSelectPrompt` passes it through unchanged). -/
def render (p : Prompt) (input : String) : String :=
  if p.isTemplate then previewTemplate p.content input else p.content

/-- Join segments with a separator; `joinSegs sep ss` is the unique string
whose placeholder occurrences (for `sep` the placeholder) sit exactly
between the segments when no segment contains one. -/
def joinSegs (sep : String) : List String → String
  | [] => ""
  | [s] => s
  | s :: rest => s ++ sep ++ joinSegs sep rest

theorem matchesAt_append_self (p t : List Char) : matchesAt p (p ++ t) = true := by
  induction p with
  | nil => rfl
  | cons a ps ih => simp [matchesAt, ih]

theorem matchesAt_iff_take (p l : List Char) :
    matchesAt p l = true ↔ List.take p.length l = p := by
  induction p generalizing l with
  | nil => simp [matchesAt]
  | cons a ps ih =>
    cases l with
    | nil => simp [matchesAt]
    | cons b ls => simp [matchesAt, ih, eq_comm (a := a) (b := b), and_comm]

/-- The placeholder does not overlap itself: no proper suffix-shift of
`qpat` coincides with the matching-length tail. -/
theorem qpat_no_overlap :
    ∀ k, k < 7 → 0 < k → List.drop k qpat ≠ List.take (7 - k) qpat := by decide

/-- A match of the placeholder cannot straddle the boundary between a
non-empty block `u` and a following aligned occurrence: it must already
match at the head of `u`. -/
theorem crossMatch (u t : List Char) (hu : u ≠ [])
    (h : matchesAt qpat (u ++ (qpat ++ t)) = true) : matchesAt qpat u = true := by
  rw [matchesAt_iff_take] at h
  have h7 : qpat.length = 7 := rfl
  rw [h7] at h
  by_cases hk : 7 ≤ u.length
  · rw [matchesAt_iff_take, h7]
    rw [List.take_append_eq_append_take, Nat.sub_eq_zero_of_le hk,
      List.take_zero, List.append_nil] at h
    exact h
  · exfalso
    push_neg at hk
    have hk0 : 0 < u.length := List.length_pos.mpr hu
    rw [List.take_append_eq_append_take] at h
    rw [List.take_append_eq_append_take, h7] at h
    have hz : 7 - u.length - 7 = 0 := by omega
    rw [hz, List.take_zero, List.append_nil] at h
    have htu : List.take 7 u = u := List.take_of_length_le (by omega)
    rw [htu] at h
    have hdrop : List.drop u.length qpat = List.take (7 - u.length) qpat := by
      conv_lhs => rw [← h]
      rw [List.drop_left]
    exact qpat_no_overlap u.length hk hk0 hdrop

theorem replaceQueryAux_nil (rep orig : List Char) (pos : Nat) :
    replaceQueryAux rep orig pos [] = [] := by
  simp [replaceQueryAux]

/-- A replacement string without the dollar character is inserted
verbatim by the expansion. -/
theorem expandDollar_no_dollar (matched before after : List Char) :
    ∀ rep : List Char, dollarChar ∉ rep →
      expandDollar matched before after rep = rep := by
  intro rep
  induction rep with
  | nil => intro _; rfl
  | cons c rest ih =>
    intro h
    have hc : c ≠ dollarChar := fun hcv => h (by simp [hcv])
    have hrest : dollarChar ∉ rest := fun hm => h (by simp [hm])
    cases rest with
    | nil => rfl
    | cons d rest2 =>
      simp only [expandDollar, if_neg hc]
      rw [ih hrest]

/-- A block without an occurrence is scanned through unchanged, at any
position. -/
theorem replaceQueryAux_no_occurrence (rep orig : List Char) :
    ∀ (s : List Char) (pos : Nat), listHasSub qpat s = false →
      replaceQueryAux rep orig pos s = s := by
  intro s
  induction s with
  | nil => intro pos _; simp [replaceQueryAux]
  | cons c cs ih =>
    intro pos h
    rw [listHasSub] at h
    rw [Bool.or_eq_false_iff] at h
    rw [replaceQueryAux, if_neg (by simp [h.1])]
    rw [ih (pos + 1) h.2]

/-- Key step: an occurrence right after an occurrence-free block is
replaced by the expansion of the replacement at that match position, the
block kept verbatim, and scanning continues after the occurrence. -/
theorem replaceQueryAux_block (rep orig t : List Char) :
    ∀ (s : List Char) (pos : Nat), listHasSub qpat s = false →
      replaceQueryAux rep orig pos (s ++ (qpat ++ t))
        = s ++ (expandDollar qpat (List.take (pos + s.length) orig)
                  (List.drop (pos + s.length + 7) orig) rep
                ++ replaceQueryAux rep orig (pos + s.length + 7) t) := by
  intro s
  induction s with
  | nil =>
    intro pos _
    have hq : qpat ++ t = '{' :: ("query\x7d".data ++ t) := rfl
    rw [List.nil_append, List.nil_append, hq, replaceQueryAux,
      if_pos (by rw [← hq]; exact matchesAt_append_self qpat t), ← hq]
    have h7 : qpat.length = 7 := rfl
    rw [List.drop_left]
    simp [h7]
  | cons c cs ih =>
    intro pos h
    rw [listHasSub] at h
    rw [Bool.or_eq_false_iff] at h
    have hno : matchesAt qpat ((c :: cs) ++ (qpat ++ t)) ≠ true := by
      intro hcontra
      have := crossMatch (c :: cs) t (by simp) hcontra
      rw [this] at h
      exact absurd h.1 (by simp)
    rw [List.cons_append, replaceQueryAux, if_neg (by simpa using hno)]
    rw [ih (pos + 1) h.2, List.cons_append]
    have h1 : pos + 1 + cs.length = pos + (cs.length + 1) := by omega
    simp only [List.length_cons, h1]

/-- Replacing in a join of occurrence-free segments with a dollar-free
replacement replaces exactly the separators and nothing else, for any
scan origin. -/
theorem replaceQueryAux_joinSegs (rep : String) (hrep : dollarChar ∉ rep.data) :
    ∀ (ss : List String) (orig : List Char) (pos : Nat),
      (∀ s ∈ ss, listHasSub qpat s.data = false) →
      replaceQueryAux rep.data orig pos (joinSegs "{query}" ss).data
        = (joinSegs rep ss).data := by
  intro ss
  induction ss with
  | nil =>
    intro orig pos _
    show replaceQueryAux rep.data orig pos [] = []
    simp [replaceQueryAux]
  | cons s rest ih =>
    intro orig pos h
    cases rest with
    | nil =>
      have hs : listHasSub qpat s.data = false := h s (by simp)
      show replaceQueryAux rep.data orig pos s.data = s.data
      exact replaceQueryAux_no_occurrence rep.data orig s.data pos hs
    | cons s2 rest2 =>
      have hs : listHasSub qpat s.data = false := h s (by simp)
      have hrest : ∀ x ∈ s2 :: rest2, listHasSub qpat x.data = false := by
        intro x hx; exact h x (by simp [hx])
      have hdata : (s ++ "{query}" ++ joinSegs "{query}" (s2 :: rest2)).data
          = s.data ++ (qpat ++ (joinSegs "{query}" (s2 :: rest2)).data) := by
        rw [String.data_append, String.data_append, List.append_assoc]
        rfl
      show replaceQueryAux rep.data orig pos
            (s ++ "{query}" ++ joinSegs "{query}" (s2 :: rest2)).data
          = (s ++ rep ++ joinSegs rep (s2 :: rest2)).data
      rw [hdata, replaceQueryAux_block rep.data orig _ s.data pos hs]
      rw [expandDollar_no_dollar _ _ _ rep.data hrep]
      rw [ih orig (pos + s.data.length + 7) hrest]
      rw [String.data_append, String.data_append, List.append_assoc]

/-- String-level corollary at the top-level call shape of `replaceQuery`. -/
theorem replaceQueryStr_joinSegs (rep : String) (hrep : dollarChar ∉ rep.data)
    (ss : List String) (hfree : ∀ s ∈ ss, listHasSub qpat s.data = false) :
    replaceQueryStr rep (joinSegs "{query}" ss) = joinSegs rep ss := by
  apply String.ext
  show replaceQueryAux rep.data (joinSegs "{query}" ss).data 0
        (joinSegs "{query}" ss).data
      = (joinSegs rep ss).data
  exact replaceQueryAux_joinSegs rep hrep ss _ 0 hfree

end LLMeter

open LLMeter in
/-- C6 counterexample: JavaScript expands replacement patterns inside the
replacement string, so rendering the template `say {query}` with user
input `$&` re-inserts the matched placeholder itself: the result is
`say {query}`, not the input substituted verbatim (`say $&`), refuting the
claim that every occurrence is replaced by userInput with all other
characters unchanged. -/
theorem render_dollar_counterexample :
    render ⟨"1", "T", "say {query}", 3, true⟩ "$&" = "say {query}"
    ∧ ("say {query}" : String) ≠ "say $&" := by
  constructor
  · show previewTemplate "say {query}" "$&" = "say {query}"
    rw [previewTemplate, if_neg (by decide)]
    apply String.ext
    show replaceQueryAux "$&".data "say {query}".data 0 "say {query}".data
        = "say {query}".data
    have horig : "say {query}".data = "say ".data ++ (qpat ++ ([] : List Char)) := by
      decide
    rw [horig]
    rw [replaceQueryAux_block "$&".data _ _ "say ".data 0 (by decide)]
    rw [replaceQueryAux_nil]
    decide
  · decide

open LLMeter in
/-- C6 (amended): rendering a non-template prompt returns the stored
content unchanged for any input; rendering a template whose content is a
join of placeholder-free segments with non-empty input containing no
dollar character replaces every placeholder occurrence (exactly the
separators) by the input verbatim and leaves all other characters (the
segments) unchanged — a dollar in the input instead undergoes the
replacement-pattern expansion exhibited by the counterexample; with empty
input the descriptive (dollar-free) placeholder string is substituted
instead. -/
theorem render_spec (p : Prompt) (input : String) (ss : List String) :
    (p.isTemplate = false → render p input = p.content)
    ∧ (p.isTemplate = true → input ≠ "" → dollarChar ∉ input.data →
        (∀ s ∈ ss, listHasSub qpat s.data = false) →
        p.content = joinSegs "{query}" ss →
        render p input = joinSegs input ss)
    ∧ (p.isTemplate = true →
        (∀ s ∈ ss, listHasSub qpat s.data = false) →
        p.content = joinSegs "{query}" ss →
        render p "" = joinSegs "[Your input will appear here]" ss) := by
  refine ⟨?_, ?_, ?_⟩
  · intro h; simp [render, h]
  · intro ht hi hd hfree hc
    rw [render, if_pos ht, previewTemplate, if_neg hi, hc]
    exact replaceQueryStr_joinSegs input hd ss hfree
  · intro ht hfree hc
    rw [render, if_pos ht, previewTemplate, if_pos rfl, hc]
    exact replaceQueryStr_joinSegs "[Your input will appear here]" (by decide) ss hfree

open LLMeter in
/-- Witness for C6 (amended): a concrete template with two placeholder
occurrences rendered with the dollar-free input `X`, with the empty
input, and a non-template prompt passed through unchanged. -/
theorem render_spec_witness :
    render ⟨"1", "T", "Say {query} then {query}!", 6, true⟩ "X"
        = "Say X then X!"
    ∧ render ⟨"1", "T", "Say {query} then {query}!", 6, true⟩ ""
        = "Say [Your input will appear here] then [Your input will appear here]!"
    ∧ render ⟨"2", "P", "plain {query} stays", 4, false⟩ "X" = "plain {query} stays" := by
  refine ⟨?_, ?_, ?_⟩
  · have h := (render_spec ⟨"1", "T", "Say {query} then {query}!", 6, true⟩ "X"
      ["Say ", " then ", "!"]).2.1 rfl (by decide) (by decide) (by decide) rfl
    exact h.trans rfl
  · have h := (render_spec ⟨"1", "T", "Say {query} then {query}!", 6, true⟩ "X"
      ["Say ", " then ", "!"]).2.2 rfl (by decide) rfl
    exact h.trans rfl
  · exact (render_spec ⟨"2", "P", "plain {query} stays", 4, false⟩ "X" []).1 rfl

namespace LLMeter

/-- The prompt store of prompt-manager.tsx: the distinguished System
Prompt lives in its own state slot, the user prompts in a list. -/
structure PromptState where
  systemPrompt : Prompt
  prompts : List Prompt
deriving DecidableEq, Repr

/-- The initial System Prompt record (`id: "system"`, fixed identity). -/
def initialSystemPrompt : Prompt :=
  ⟨"system", "System Prompt", "You are a helpful assistant.",
   countTokens "You are a helpful assistant.", false⟩

/-- `handleDeletePrompt` (the confirmed path of the dialog):
`setPrompts(prompts.filter(p => p.id !== id))`.  No error of any kind is
raised; the System Prompt slot is untouched. -/
def handleDeletePrompt (st : PromptState) (id : String) : PromptState :=
  { st with prompts := st.prompts.filter (fun p => p.id != id) }

/-- Lookup of a prompt by id in the stored list. -/
def findPrompt (ps : List Prompt) (id : String) : Option Prompt :=
  ps.find? (fun p => p.id == id)

/-- `handleCreatePrompt`: blank-after-trim name or content silently
returns, otherwise a record is appended with `Date.now().toString()` as
id, trimmed fields, and the estimator of the trimmed content. -/
def handleCreatePrompt (prompts : List Prompt) (name content : String)
    (isTemplate : Bool) (nowMs : Nat) : List Prompt :=
  if strTrim name = "" || strTrim content = "" then prompts
  else prompts ++ [⟨toString nowMs, strTrim name, strTrim content,
                    countTokens (strTrim content), isTemplate⟩]

end LLMeter

open LLMeter in
/-- C7 counterexample: deleting the id of the distinguished System Prompt
returns normally with the whole state unchanged — a silent no-op, not a
rejection — so the claim that it fails with a `ValidationError` is false
at this input. -/
theorem deleteSystemPrompt_counterexample :
    handleDeletePrompt ⟨initialSystemPrompt, [⟨"17", "A", "hello", 2, false⟩]⟩ "system"
      = ⟨initialSystemPrompt, [⟨"17", "A", "hello", 2, false⟩]⟩ := by
  decide

open LLMeter in
/-- C7 (amended): deleting never raises anything: the System Prompt slot
is always untouched; after deleting an id, lookup of that id finds
nothing; every prompt with a different id is retained; and deleting an id
not present in the list (in particular `"system"`, which is never a list
member) leaves the state exactly unchanged — a silent no-op, not a
`ValidationError`, and lookup misses are a `none` result, not a
`NotFoundError`. -/
theorem deletePrompt_behavior (st : PromptState) (id : String) :
    (handleDeletePrompt st id).systemPrompt = st.systemPrompt
    ∧ findPrompt (handleDeletePrompt st id).prompts id = none
    ∧ (∀ p ∈ st.prompts, p.id ≠ id → p ∈ (handleDeletePrompt st id).prompts)
    ∧ ((∀ p ∈ st.prompts, p.id ≠ id) → handleDeletePrompt st id = st) := by
  refine ⟨rfl, ?_, ?_, ?_⟩
  · rw [findPrompt, List.find?_eq_none]
    intro p hp
    rw [handleDeletePrompt] at hp
    simp only [List.mem_filter] at hp
    simpa using hp.2
  · intro p hp hne
    rw [handleDeletePrompt]
    simp only [List.mem_filter]
    exact ⟨hp, by simpa using hne⟩
  · intro hall
    rw [handleDeletePrompt, List.filter_eq_self.mpr]
    intro p hp
    simpa using hall p hp

open LLMeter in
/-- Witness for C7 (amended): deleting `"17"` removes it from lookup and
keeps the System Prompt; deleting an absent id is the identity. -/
theorem deletePrompt_behavior_witness :
    (handleDeletePrompt ⟨initialSystemPrompt, [⟨"17", "A", "hello", 2, false⟩]⟩ "17").systemPrompt
        = initialSystemPrompt
    ∧ findPrompt (handleDeletePrompt ⟨initialSystemPrompt,
        [⟨"17", "A", "hello", 2, false⟩]⟩ "17").prompts "17" = none
    ∧ handleDeletePrompt ⟨initialSystemPrompt, [⟨"17", "A", "hello", 2, false⟩]⟩ "999"
        = ⟨initialSystemPrompt, [⟨"17", "A", "hello", 2, false⟩]⟩ :=
  ⟨(deletePrompt_behavior ⟨initialSystemPrompt, [⟨"17", "A", "hello", 2, false⟩]⟩ "17").1,
   (deletePrompt_behavior ⟨initialSystemPrompt, [⟨"17", "A", "hello", 2, false⟩]⟩ "17").2.1,
   (deletePrompt_behavior ⟨initialSystemPrompt, [⟨"17", "A", "hello", 2, false⟩]⟩ "999").2.2.2
     (by decide)⟩

open LLMeter in
/-- C8 counterexample: creating with a whitespace-only name returns
normally with the list unchanged (no `ValidationError`), and two creations
in the same millisecond produce two records with the SAME id, so the
freshly assigned id is not distinct from every existing id. -/
theorem createPrompt_counterexample :
    handleCreatePrompt [] " " "x" false 0 = []
    ∧ (handleCreatePrompt (handleCreatePrompt [] "a" "x" false 5) "b" "y" false 5).map
        Prompt.id = ["5", "5"] := by
  exact ⟨by decide, by decide⟩

open LLMeter in
/-- C8 (amended): creation with name or content blank after trimming is a
silent no-op (the list is returned unchanged, no error value exists);
otherwise the new record is appended with id the current millisecond
timestamp as a string (unique only if no existing prompt carries that
timestamp id), trimmed name and content, the Token Estimator of the
trimmed (stored) content, and the given template flag. -/
theorem createPrompt_behavior (prompts : List Prompt) (name content : String)
    (b : Bool) (nowMs : Nat) :
    (strTrim name = "" ∨ strTrim content = "" →
      handleCreatePrompt prompts name content b nowMs = prompts)
    ∧ (strTrim name ≠ "" → strTrim content ≠ "" →
      handleCreatePrompt prompts name content b nowMs
        = prompts ++ [⟨toString nowMs, strTrim name, strTrim content,
                       countTokens (strTrim content), b⟩]) := by
  constructor
  · intro h
    rcases h with h | h
    · simp [handleCreatePrompt, h]
    · simp [handleCreatePrompt, h]
  · intro hn hc
    simp [handleCreatePrompt, hn, hc]

open LLMeter in
/-- Witness for C8 (amended): a blank name is a no-op; a real creation
appends the trimmed, estimated record. -/
theorem createPrompt_behavior_witness :
    handleCreatePrompt [] "  " "x" false 3 = []
    ∧ handleCreatePrompt [] " a " "b c" true 7
        = [⟨toString 7, strTrim " a ", strTrim "b c", countTokens (strTrim "b c"), true⟩] :=
  ⟨(createPrompt_behavior [] "  " "x" false 3).1 (Or.inl (by decide)),
   (createPrompt_behavior [] " a " "b c" true 7).2 (by decide) (by decide)⟩

namespace LLMeter

/-! ### Conversation accumulator (the chat page `handleSubmit` and
`tokenStats`)

A conversation entry is a message with a token count; the `timestamp`
field of the source (wall-clock time) carries no accounted information
and is not modelled.  The count is `Option` because the source type marks
it optional; every entry `handleSubmit` creates carries one. -/

/-- One conversation entry. -/
structure ChatMessage where
  role : Role
  content : String
  tokens : Option Nat
deriving DecidableEq, Repr

/-- `sendMessage`'s result type `{content, tokens?}`. -/
structure ApiResponse where
  content : String
  tokens : Option Nat
deriving DecidableEq, Repr

/-- `tokenStats`: fold the per-entry counts into (input, output) totals,
user entries into the first component, assistant entries into the second,
anything else ignored; a missing count contributes 0. -/
def tokenStats (messages : List ChatMessage) : Nat × Nat :=
  messages.foldl
    (fun stats m =>
      let tokens := m.tokens.getD 0
      if m.role == Role.user then (stats.1 + tokens, stats.2)
      else if m.role == Role.assistant then (stats.1, stats.2 + tokens)
      else stats)
    (0, 0)

/-- The synthetic assistant content built in the catch block, carrying the
human-readable description of the error. -/
def errorContent (details : String) : String :=
  "Error: Failed to get response from the API. Please check your API key and configuration.\n\nDetails: "
    ++ details

/-- The simulated reply used when no API key is configured. -/
def simulatedContent (input : String) : String :=
  "This is a simulated response to: \"" ++ input
    ++ "\".\n\nIn a real implementation, you would connect to an actual LLM API here."

/-- One send cycle of `handleSubmit`.  The adapter call is the parameter:
`.ok (some r)` is a reply, `.ok none` is the `null` result (re-thrown as
"Failed to get response from API" and caught), `.error e` any error thrown
during the send.  Blank input returns immediately; the user entry is
appended before the try block, so it is present in every outcome; the
assistant entry count is `response.tokens || countTokens(content)`. -/
def handleSubmit (prev : List ChatMessage) (input : String) (isConfigured : Bool)
    (adapter : Except String (Option ApiResponse)) : List ChatMessage :=
  if strTrim input = "" then prev
  else
    let afterUser := prev ++ [⟨Role.user, input, some (countTokens input)⟩]
    if isConfigured then
      match adapter with
      | .ok (some r) =>
        afterUser ++ [⟨Role.assistant, r.content,
          some (match r.tokens with
                | some t => if t == 0 then countTokens r.content else t
                | none => countTokens r.content)⟩]
      | .ok none =>
        afterUser ++ [⟨Role.assistant, errorContent "Failed to get response from API", some 0⟩]
      | .error e =>
        afterUser ++ [⟨Role.assistant, errorContent e, some 0⟩]
    else
      afterUser ++ [⟨Role.assistant, simulatedContent input,
        some (countTokens (simulatedContent input))⟩]

theorem matchesAt_self (p : List Char) : matchesAt p p = true := by
  have := matchesAt_append_self p []
  simpa using this

theorem listHasSub_append_self (x p : List Char) : listHasSub p (x ++ p) = true := by
  induction x with
  | nil =>
    cases p with
    | nil => rfl
    | cons c cs => simp [listHasSub, matchesAt_self]
  | cons c x' ih => simp [listHasSub, ih]

end LLMeter

open LLMeter in
/-- C9: the scenario send — empty conversation, user text `Hello`,
configured session, adapter reply `{content: Hi there, completion
tokens 3}` — yields exactly two entries, user then assistant, and totals
(input = estimate of `Hello`, output = 3). -/
theorem sendCycle_scenario :
    (handleSubmit [] "Hello" true (.ok (some ⟨"Hi there", some 3⟩))).length = 2
    ∧ (handleSubmit [] "Hello" true (.ok (some ⟨"Hi there", some 3⟩))).map ChatMessage.role
        = [Role.user, Role.assistant]
    ∧ tokenStats (handleSubmit [] "Hello" true (.ok (some ⟨"Hi there", some 3⟩)))
        = (countTokens "Hello", 3) := by
  refine ⟨by decide, by decide, by decide⟩

open LLMeter in
/-- C10: when the adapter call throws, the conversation keeps the user
entry and gains a synthetic assistant entry with zero tokens whose content
carries the error description; no previous entry is lost. -/
theorem sendFailure_appends_error (prev : List ChatMessage) (input e : String)
    (h : strTrim input ≠ "") :
    handleSubmit prev input true (.error e)
      = prev ++ [⟨Role.user, input, some (countTokens input)⟩,
                 ⟨Role.assistant, errorContent e, some 0⟩]
    ∧ (handleSubmit prev input true (.error e)).take prev.length = prev
    ∧ strIncludes (errorContent e) e = true := by
  have h1 : handleSubmit prev input true (.error e)
      = prev ++ [⟨Role.user, input, some (countTokens input)⟩,
                 ⟨Role.assistant, errorContent e, some 0⟩] := by
    simp [handleSubmit, h]
  refine ⟨h1, ?_, ?_⟩
  · rw [h1]
    exact List.take_left prev _
  · rw [strIncludes, errorContent, String.data_append]
    exact listHasSub_append_self _ _

open LLMeter in
/-- Witness for C10 at a concrete failing send. -/
theorem sendFailure_appends_error_witness :
    handleSubmit [] "x" true (.error "boom")
      = [⟨Role.user, "x", some (countTokens "x")⟩,
         ⟨Role.assistant, errorContent "boom", some 0⟩]
    ∧ strIncludes (errorContent "boom") "boom" = true :=
  ⟨(sendFailure_appends_error [] "x" "boom" (by decide)).1,
   (sendFailure_appends_error [] "x" "boom" (by decide)).2.2⟩
